import Mathlib

/-!
Verification of the Adaptive Learning Session Engine of the kids e-learning
application.  The definitions below are shallow embeddings of the TypeScript
source files:

* `App` models `src/project/src/App.tsx` (session state machine, progress
  ledger update, age policy, static fallback question bank);
* `AIService` models `src/project/src/services/aiService.ts` (generation
  client validation, seeded fallback question bank, fallback analytics);
* `DatabaseService` models the achievement / unlock rules of `addPoints` in
  `src/project/src/services/databaseService.ts`.

JavaScript numbers that are used as non-negative counters are modelled as
`Nat`; raw JSON numbers (which may be negative) as `Int`.  Effects that leave
the process (network calls, persistence writes, `console.log`) are not part
of the state; sources of randomness (`Date.now()`, `Math.random()`) are
threaded as explicit parameters.
-/

/-- Decimal rendering of a JavaScript number interpolated into a template
string (`` `${n}` ``), used by the id-generation code.  Rendered from
`Nat.digits` so that injectivity is available. -/
def natDec (n : Nat) : String :=
  if n = 0 then "0" else (((Nat.digits 10 n).reverse.map Nat.digitChar)).asString

/-- The canonical Question record (`AIQuestion` in `src/types/ai.ts`). -/
structure AIQuestion where
  id : String
  question : String
  options : List String
  correct : Int
  explanation : String
  difficulty : String
  topic : String
deriving DecidableEq

/-- The six learning modules of `App.tsx` (`type LearningModule`). -/
inductive LearningModule
  | letters | numbers | colors | shapes | animals | math
deriving DecidableEq

namespace App

/-- `interface UserProgress` of `App.tsx` (the progress ledger). -/
structure UserProgress where
  totalPoints : Nat
  correctAnswers : Nat
  totalAnswers : Nat
  achievements : List String
  moduleProgress : LearningModule → Nat
  currentStreak : Nat
  recentTopics : List String
  childName : String

/-- The initial progress state of `App.tsx` (`useState<UserProgress>({...})`
with every counter zero). -/
def zeroProgress (name : String) : UserProgress where
  totalPoints := 0
  correctAnswers := 0
  totalAnswers := 0
  achievements := []
  moduleProgress := fun _ => 0
  currentStreak := 0
  recentTopics := []
  childName := name

/-- The `setProgress` updater executed by `handleAnswerSelect`
(`App.tsx` lines 298-313): the per-answer progress-ledger update. -/
def updateProgress (prev : UserProgress) (isCorrect : Bool)
    (selectedModule : LearningModule) (topic : String) : UserProgress :=
  { prev with
    totalPoints := prev.totalPoints + (if isCorrect then 10 else 0)
    correctAnswers := prev.correctAnswers + (if isCorrect then 1 else 0)
    totalAnswers := prev.totalAnswers + 1
    currentStreak := if isCorrect then prev.currentStreak + 1 else 0
    moduleProgress := fun m =>
      if m = selectedModule then
        prev.moduleProgress selectedModule + (if isCorrect then 1 else 0)
      else prev.moduleProgress m
    recentTopics := topic :: prev.recentTopics.take 9 }

/-- One answer event: outcome, the module being quizzed, the question topic. -/
structure Outcome where
  isCorrect : Bool
  module : LearningModule
  topic : String

/-- Applying a sequence of answer outcomes to a ledger, in order. -/
def runOutcomes (start : UserProgress) (events : List Outcome) : UserProgress :=
  events.foldl (fun p e => updateProgress p e.isCorrect e.module e.topic) start

/-- Number of correct outcomes in a sequence. -/
def countCorrect (events : List Outcome) : Nat :=
  (events.filter (fun e => e.isCorrect)).length

/-- Length of the maximal trailing run of correct outcomes. -/
def trailingCorrect (events : List Outcome) : Nat :=
  (events.reverse.takeWhile (fun e => e.isCorrect)).length

/-- `getQuestionCountForAge` (`App.tsx` lines 199-204). -/
def getQuestionCountForAge (age : Nat) : Nat :=
  if age ≤ 5 then 3
  else if age ≤ 7 then 4
  else if age ≤ 9 then 5
  else 6

/-- Placeholder question used for the (never exercised in the app flow)
out-of-range list access `currentQuestions[currentQuestion]`. -/
def dummyQuestion : AIQuestion :=
  { id := "", question := "", options := [], correct := 0,
    explanation := "", difficulty := "", topic := "" }

/-- The quiz-local state of `MainApp` that `handleAnswerSelect` reads and
writes (`App.tsx`): current question batch and index, reveal flag, selected
answer, progress ledger, selected module, practice-mode bookkeeping and the
celebration flag.  External effects (persistence write, encouragement call)
leave no trace in this state. -/
structure QuizState where
  currentQuestions : List AIQuestion
  currentQuestion : Nat
  showAnswer : Bool
  selectedAnswer : Option Int
  progress : UserProgress
  selectedModule : LearningModule
  isPracticeMode : Bool
  incorrectQuestions : List AIQuestion
  showCelebration : Bool

/-- `handleAnswerSelect` (`App.tsx` lines 258-328) as a state transition:
guarded by `if (showAnswer) return;`, then records the selected answer, sets
the reveal flag, tracks the question for practice when answered incorrectly
outside practice mode, applies the progress-ledger update and raises the
celebration flag on a correct answer. -/
def handleAnswerSelect (s : QuizState) (answerIndex : Int) : QuizState :=
  if s.showAnswer then s
  else
    let q := s.currentQuestions.getD s.currentQuestion dummyQuestion
    let isCorrect := answerIndex = q.correct
    { s with
      selectedAnswer := some answerIndex
      showAnswer := true
      incorrectQuestions :=
        if ¬ isCorrect ∧ ¬ s.isPracticeMode then s.incorrectQuestions ++ [q]
        else s.incorrectQuestions
      progress := updateProgress s.progress (decide isCorrect) s.selectedModule q.topic
      showCelebration := if isCorrect then true else s.showCelebration }

end App

namespace DatabaseService

/-- The achievement / unlock rule block of `addPoints`
(`databaseService.ts` lines 436-448): given the updated point total and the
current achievement and unlock lists, adds the `memory_game` unlock together
with the `First Game Unlocked!` achievement at 50 points when the unlock is
not yet present, then the `Century Club` achievement at 100 points when not
yet present.  Returns (achievements, games_unlocked). -/
def checkAchievements (newTotalPoints : Nat) (achievements games : List String) :
    List String × List String :=
  let step1 :=
    if 50 ≤ newTotalPoints ∧ "memory_game" ∉ games then
      (achievements ++ ["First Game Unlocked!"], games ++ ["memory_game"])
    else (achievements, games)
  let finalAchievements :=
    if 100 ≤ newTotalPoints ∧ "Century Club" ∉ step1.1 then
      step1.1 ++ ["Century Club"]
    else step1.1
  (finalAchievements, step1.2)

end DatabaseService

namespace App

/-- One answer outcome applied with achievement/unlock rule evaluation after
the ledger update, as in the original flow where each answer triggers
`addPoints(child, isCorrect ? 10 : 0, isCorrect ? 1 : 0, 1)`: the state is
the progress ledger together with the `games_unlocked` list. -/
def stepWithRules (s : UserProgress × List String) (e : Outcome) :
    UserProgress × List String :=
  let p := updateProgress s.1 e.isCorrect e.module e.topic
  let r := DatabaseService.checkAchievements p.totalPoints p.achievements s.2
  ({ p with achievements := r.1 }, r.2)

/-- Folding a sequence of outcomes with rule evaluation from the zero ledger
and no unlocks. -/
def runWithRules (events : List Outcome) : UserProgress × List String :=
  events.foldl stepWithRules (zeroProgress "friend", [])

/-- The spec's example outcome sequence: correct, correct, incorrect, correct,
correct, correct, played in one module. -/
def scenarioOutcomes : List Outcome :=
  [⟨true, .letters, "alphabet sequence"⟩,
   ⟨true, .letters, "letter sounds"⟩,
   ⟨false, .letters, "alphabet sequence"⟩,
   ⟨true, .letters, "letter sounds"⟩,
   ⟨true, .letters, "alphabet sequence"⟩,
   ⟨true, .letters, "letter sounds"⟩]

/-- Four correct outcomes, leaving the ledger at 40 points. -/
def fortyPointOutcomes : List Outcome :=
  List.replicate 4 ⟨true, .numbers, "counting"⟩

end App

/-- A concrete quiz state with the answer already revealed. -/
def revealedState : App.QuizState where
  currentQuestions := [App.dummyQuestion]
  currentQuestion := 0
  showAnswer := true
  selectedAnswer := some 1
  progress := App.zeroProgress "friend"
  selectedModule := .letters
  isPracticeMode := false
  incorrectQuestions := []
  showCelebration := false

namespace AIService

/-- A raw element of the JSON array parsed out of the collaborator's reply
(`parseQuestionsFromResponse`).  Absent (or wrongly-typed: a non-string
prompt, a non-array `options`, a non-numeric `correct`) fields are `none`;
JS numbers are modelled as integers. -/
structure RawQuestion where
  question : Option String
  options : Option (List String)
  correct : Option Int
  explanation : Option String
  difficulty : Option String
  topic : Option String
deriving DecidableEq

/-- JavaScript truthiness of an optional string field: present and
non-empty. -/
def truthyStr : Option String → Bool
  | some s => s != ""
  | none => false

/-- JavaScript `x || d` for an optional string (used for `q.topic ||
'general'`): the default replaces an absent or empty string. -/
def jsOrDefault (o : Option String) (d : String) : String :=
  match o with
  | some s => if s = "" then d else s
  | none => d

/-- The per-element validation filter of `parseQuestionsFromResponse`
(`aiService.ts` lines 347-355): truthy prompt, an options array of length
exactly 4, a numeric correct index in `[0,4)`, truthy explanation. -/
def isValidQuestion (q : RawQuestion) : Bool :=
  truthyStr q.question &&
  (match q.options with
   | some os => os.length == 4
   | none => false) &&
  (match q.correct with
   | some n => decide (0 ≤ n) && decide (n < 4)
   | none => false) &&
  truthyStr q.explanation

/-- `parseQuestionsFromResponse` (`aiService.ts` lines 326-378) after JSON
parsing: `none` stands for a reply that failed to parse as JSON or did not
parse to an array (both return `[]`); otherwise the elements failing
validation are dropped, an empty survivor list yields `[]`, and each
survivor is mapped to a canonical question with the fresh id
`ai-<Date.now()>-<index>` and hard-coded difficulty `easy`.  `now` is the
`Date.now()` value. -/
def parseQuestionsFromResponse (now : Nat) (parsed : Option (List RawQuestion)) :
    List AIQuestion :=
  match parsed with
  | none => []
  | some items =>
    let validQuestions := items.filter isValidQuestion
    if validQuestions.length = 0 then []
    else
      validQuestions.enum.map (fun p =>
        { id := "ai-" ++ natDec now ++ "-" ++ natDec p.1
          question := p.2.question.getD ""
          options := p.2.options.getD []
          correct := p.2.correct.getD 0
          explanation := p.2.explanation.getD ""
          difficulty := "easy"
          topic := jsOrDefault p.2.topic "general" })

/-- The acceptance condition of the spec, stated in the claim's own words:
non-empty question prompt, exactly 4 options, a numeric correct index in
`[0,4)`, non-empty explanation. -/
def specAccepts (q : RawQuestion) : Prop :=
  (∃ s, q.question = some s ∧ s ≠ "") ∧
  (∃ os, q.options = some os ∧ os.length = 4) ∧
  (∃ n, q.correct = some n ∧ 0 ≤ n ∧ n < 4) ∧
  (∃ e, q.explanation = some e ∧ e ≠ "")

/-- Builds one curated fallback question of `getFallbackQuestions`
(`aiService.ts` lines 384-684): id `fallback-<tag>-<timestamp>`, difficulty
`easy`. -/
def mkFQ (tag : String) (ts : Nat) (q : String) (opts : List String)
    (c : Int) (e : String) (topic : String) : AIQuestion :=
  { id := "fallback-" ++ tag ++ "-" ++ natDec ts
    question := q
    options := opts
    correct := c
    explanation := e
    difficulty := "easy"
    topic := topic }

/-- The three curated `letters` sets of `allFallbackQuestions`. -/
def lettersSets (ts : Nat) : List (List AIQuestion) :=
  [[mkFQ "l1" ts "What letter comes after B in the alphabet?"
      ["A", "C", "D", "E"] 1
      "Fantastic! C comes right after B in the alphabet! ðŸŽ‰" "alphabet sequence",
    mkFQ "l2" ts "Which letter comes before F?"
      ["D", "E", "G", "H"] 1
      "Perfect! E comes right before F! You\x27re amazing! â­" "alphabet sequence",
    mkFQ "l3" ts "What letter is between M and O?"
      ["L", "N", "P", "Q"] 1
      "Brilliant! N is right between M and O! ðŸŒŸ" "alphabet sequence"],
   [mkFQ "l4" ts "Which letter makes the \"ssss\" sound like a snake?"
      ["R", "S", "T", "Z"] 1
      "Excellent! The letter S makes the \"ssss\" sound! ðŸ" "phonics",
    mkFQ "l5" ts "What sound does the letter \"B\" make?"
      ["buh", "puh", "duh", "guh"] 0
      "Great job! B makes the \"buh\" sound! ðŸŽŠ" "phonics",
    mkFQ "l6" ts "Which letter sounds like \"zzz\" when a bee flies?"
      ["S", "C", "Z", "X"] 2
      "Amazing! Z makes the \"zzz\" sound like a buzzing bee! ðŸ" "phonics"],
   [mkFQ "l7" ts "What is the first letter of \"rainbow\"?"
      ["R", "A", "I", "N"] 0
      "Wonderful! Rainbow starts with the letter R! ðŸŒˆ" "beginning sounds",
    mkFQ "l8" ts "Which word starts with the letter \"D\"?"
      ["Cat", "Dog", "Fish", "Bird"] 1
      "Perfect! Dog starts with the letter D! ðŸ•" "beginning sounds",
    mkFQ "l9" ts "What letter does \"butterfly\" begin with?"
      ["B", "F", "L", "T"] 0
      "Superb! Butterfly begins with B! ðŸ¦‹" "beginning sounds"]]

/-- The three curated `numbers` sets of `allFallbackQuestions`. -/
def numbersSets (ts : Nat) : List (List AIQuestion) :=
  [[mkFQ "n1" ts "How many stars are here? â­â­â­"
      ["2", "3", "4", "5"] 1
      "Excellent counting! There are 3 stars! â­" "counting",
    mkFQ "n2" ts "Count the hearts: â¤ï¸â¤ï¸â¤ï¸â¤ï¸â¤ï¸"
      ["4", "5", "6", "7"] 1
      "Amazing! You counted 5 hearts perfectly! â¤ï¸" "counting",
    mkFQ "n3" ts "How many circles? âšªâšª"
      ["1", "2", "3", "4"] 1
      "Great job! There are 2 circles! âšª" "counting"],
   [mkFQ "n4" ts "What number comes after 7?"
      ["6", "8", "9", "10"] 1
      "Fantastic! 8 comes right after 7! ðŸŽ¯" "number sequence",
    mkFQ "n5" ts "Which number is missing? 1, 2, ?, 4"
      ["2", "3", "4", "5"] 1
      "Perfect! The missing number is 3! ðŸ”¥" "number sequence",
    mkFQ "n6" ts "What comes before 10?"
      ["8", "9", "11", "12"] 1
      "Brilliant! 9 comes before 10! ðŸŒŸ" "number sequence"],
   [mkFQ "n7" ts "What is 1 + 1?"
      ["1", "2", "3", "4"] 1
      "Awesome! 1 + 1 = 2! You\x27re a math star! âœ¨" "addition",
    mkFQ "n8" ts "If you have 3 cookies and eat 1, how many are left?"
      ["1", "2", "3", "4"] 1
      "Excellent thinking! 3 - 1 = 2 cookies left! ðŸª" "subtraction",
    mkFQ "n9" ts "What is 2 + 3?"
      ["4", "5", "6", "7"] 1
      "Outstanding! 2 + 3 = 5! Keep it up! ðŸŽ‰" "addition"]]

/-- The three curated `colors` sets of `allFallbackQuestions`. -/
def colorsSets (ts : Nat) : List (List AIQuestion) :=
  [[mkFQ "c1" ts "What color do you get when you mix red and yellow?"
      ["Purple", "Orange", "Green", "Pink"] 1
      "Perfect! Red and yellow make orange! ðŸ§¡" "color mixing",
    mkFQ "c2" ts "Blue + Yellow = ?"
      ["Purple", "Orange", "Green", "Pink"] 2
      "Amazing! Blue and yellow make green! ðŸ’š" "color mixing",
    mkFQ "c3" ts "What happens when you mix red and blue?"
      ["Orange", "Purple", "Green", "Yellow"] 1
      "Fantastic! Red and blue make purple! ðŸ’œ" "color mixing"],
   [mkFQ "c4" ts "What color is grass?"
      ["Blue", "Green", "Red", "Yellow"] 1
      "Excellent! Grass is green! ðŸŒ±" "colors in nature",
    mkFQ "c5" ts "What color is the sky on a sunny day?"
      ["Blue", "Green", "Red", "Purple"] 0
      "Great observation! The sky is blue! â˜€ï¸" "colors in nature",
    mkFQ "c6" ts "What color are most tree trunks?"
      ["Green", "Blue", "Brown", "Purple"] 2
      "Perfect! Tree trunks are brown! ðŸŒ³" "colors in nature"],
   [mkFQ "c7" ts "How many colors are in a rainbow?"
      ["5", "6", "7", "8"] 2
      "Wonderful! A rainbow has 7 beautiful colors! ðŸŒˆ" "rainbow colors",
    mkFQ "c8" ts "What color do you get with NO colors mixed?"
      ["Black", "White", "Gray", "Brown"] 1
      "Smart thinking! No colors make white! âšª" "color theory",
    mkFQ "c9" ts "Which color is considered \"warm\"?"
      ["Blue", "Red", "Green", "Purple"] 1
      "Great! Red is a warm color like fire! ðŸ”¥" "color temperature"]]

/-- The `allFallbackQuestions` record of `getFallbackQuestions`: curated
sets keyed by module; lookup of any other key gives `[]` (the record holds
only `letters`, `numbers` and `colors`). -/
def allFallbackQuestions (ts : Nat) (module : String) : List (List AIQuestion) :=
  if module = "letters" then lettersSets ts
  else if module = "numbers" then numbersSets ts
  else if module = "colors" then colorsSets ts
  else []

/-- `getFallbackQuestions` (`aiService.ts` lines 384-684): picks the set at
`seed % setCount` and returns up to 5 questions of a shuffle of that set.
`ts` is the `Date.now()` timestamp baked into the ids, `seed` the
`Math.floor(Math.random() * 1000)` value, and `shuffle` stands for the
`[...selectedSet].sort(() => Math.random() - 0.5)` rearrangement, whose
comparator draws fresh randomness unrelated to `seed`. -/
def getFallbackQuestions (module : String) (ts seed : Nat)
    (shuffle : List AIQuestion → List AIQuestion) : List AIQuestion :=
  let questionSets := allFallbackQuestions ts module
  if questionSets.length = 0 then []
  else
    let setIndex := seed % questionSets.length
    let selectedSet := questionSets.getD setIndex []
    (shuffle selectedSet).take 5

/-- The configured-and-reply-received path of `generateQuestions`
(`aiService.ts` lines 57-104): parse and validate the reply; when no
question survives, substitute the fallback bank for the configured module. -/
def generateQuestions (module : String) (now ts seed : Nat)
    (shuffle : List AIQuestion → List AIQuestion)
    (parsed : Option (List RawQuestion)) : List AIQuestion :=
  let aiQuestions := parseQuestionsFromResponse now parsed
  if aiQuestions.length = 0 then getFallbackQuestions module ts seed shuffle
  else aiQuestions

end AIService

namespace App

/-- Builds one static fallback question of `getFallbackQuestions` in
`App.tsx` (lines 397-686, all tagged difficulty `easy`). -/
def mkAQ (id q : String) (opts : List String) (c : Int) (e topic : String) :
    AIQuestion :=
  { id := id, question := q, options := opts, correct := c,
    explanation := e, difficulty := "easy", topic := topic }

/-- The `fallbackData` record of `App.tsx` `getFallbackQuestions`. -/
def fallbackData : LearningModule → List AIQuestion
  | .letters =>
    [mkAQ "fallback-l1" "What letter comes after A?" ["B", "C", "D", "E"] 0
       "Great job! B comes right after A in the alphabet!" "alphabet sequence",
     mkAQ "fallback-l2" "What letter does Bag start with?" ["B", "C", "D", "E"] 0
       "Great job! Bag starts with B!" "letter sounds",
     mkAQ "fallback-l3" "Which letter comes before D?" ["A", "B", "C", "E"] 2
       "Perfect! C comes right before D!" "alphabet sequence",
     mkAQ "fallback-l4" "What letter does Cat start with?" ["B", "C", "D", "E"] 1
       "Excellent! Cat starts with C!" "letter sounds",
     mkAQ "fallback-l5" "Which is the first letter of the alphabet?"
       ["A", "B", "C", "D"] 0 "Amazing! A is the very first letter!"
       "alphabet sequence"]
  | .numbers =>
    [mkAQ "fallback-n1" "How many fingers do you have on one hand?"
       ["3", "4", "5", "6"] 2 "That\x27s right! You have 5 fingers on each hand!"
       "counting",
     mkAQ "fallback-n2" "What number comes after 3?" ["2", "4", "5", "6"] 1
       "Perfect! 4 comes after 3!" "number sequence",
     mkAQ "fallback-n3" "How many eyes do you have?" ["1", "2", "3", "4"] 1
       "Great! You have 2 eyes!" "counting",
     mkAQ "fallback-n4" "What number comes before 2?" ["1", "3", "4", "5"] 0
       "Excellent! 1 comes before 2!" "number sequence",
     mkAQ "fallback-n5" "Count the dots: ‚Ä¢ ‚Ä¢ ‚Ä¢" ["2", "3", "4", "5"] 1
       "Amazing! There are 3 dots!" "counting"]
  | .colors =>
    [mkAQ "fallback-c1" "What color do you get when you mix red and blue?"
       ["Green", "Purple", "Orange", "Yellow"] 1
       "Perfect! Red and blue make purple!" "color mixing",
     mkAQ "fallback-c2" "What color is the sun?" ["Blue", "Green", "Yellow", "Purple"] 2
       "Great! The sun is yellow!" "color recognition",
     mkAQ "fallback-c3" "What color do you get when you mix yellow and red?"
       ["Purple", "Orange", "Green", "Blue"] 1
       "Excellent! Yellow and red make orange!" "color mixing",
     mkAQ "fallback-c4" "What color is grass?" ["Red", "Green", "Blue", "Yellow"] 1
       "Perfect! Grass is green!" "color recognition",
     mkAQ "fallback-c5" "What color is the sky?" ["Red", "Yellow", "Blue", "Green"] 2
       "Amazing! The sky is blue!" "color recognition"]
  | .animals =>
    [mkAQ "fallback-a1" "What sound does a cow make?" ["Woof", "Meow", "Moo", "Roar"] 2
       "Perfect! Cows say \"Moo\"!" "animal sounds",
     mkAQ "fallback-a2" "What sound does a dog make?" ["Woof", "Meow", "Moo", "Roar"] 0
       "Great! Dogs say \"Woof\"!" "animal sounds",
     mkAQ "fallback-a3" "What sound does a cat make?" ["Woof", "Meow", "Moo", "Roar"] 1
       "Excellent! Cats say \"Meow\"!" "animal sounds",
     mkAQ "fallback-a4" "Which animal has a long trunk?" ["Dog", "Cat", "Elephant", "Bird"] 2
       "Perfect! Elephants have long trunks!" "animal features",
     mkAQ "fallback-a5" "Which animal can fly?" ["Dog", "Bird", "Cat", "Fish"] 1
       "Amazing! Birds can fly!" "animal abilities"]
  | .math =>
    [mkAQ "fallback-m1" "What is 2 + 1?" ["2", "3", "4", "5"] 1
       "Amazing! 2 + 1 = 3!" "addition",
     mkAQ "fallback-m2" "What is 1 + 1?" ["1", "2", "3", "4"] 1
       "Perfect! 1 + 1 = 2!" "addition",
     mkAQ "fallback-m3" "What is 3 + 1?" ["3", "4", "5", "6"] 1
       "Great! 3 + 1 = 4!" "addition",
     mkAQ "fallback-m4" "What is 2 + 2?" ["3", "4", "5", "6"] 1
       "Excellent! 2 + 2 = 4!" "addition",
     mkAQ "fallback-m5" "What is 5 - 1?" ["3", "4", "5", "6"] 1
       "Amazing! 5 - 1 = 4!" "subtraction"]
  | .shapes =>
    [mkAQ "fallback-s1" "How many sides does a triangle have?" ["2", "3", "4", "5"] 1
       "Excellent! A triangle has 3 sides!" "shapes",
     mkAQ "fallback-s2" "How many sides does a square have?" ["2", "3", "4", "5"] 2
       "Perfect! A square has 4 sides!" "shapes",
     mkAQ "fallback-s3" "Which shape is round?" ["Triangle", "Square", "Circle", "Rectangle"] 2
       "Great! A circle is round!" "shapes",
     mkAQ "fallback-s4" "How many corners does a rectangle have?" ["2", "3", "4", "5"] 2
       "Excellent! A rectangle has 4 corners!" "shapes",
     mkAQ "fallback-s5" "Which shape has no corners?" ["Triangle", "Square", "Circle", "Rectangle"] 2
       "Amazing! A circle has no corners!" "shapes"]

/-- `getFallbackQuestions` of `App.tsx`: empty when no module is selected,
otherwise the static bank for the selected module. -/
def getFallbackQuestions (selectedModule : Option LearningModule) : List AIQuestion :=
  match selectedModule with
  | none => []
  | some m => fallbackData m

end App

/-- Well-formedness of a question as a boolean check: exactly 4 options and
a correct index in `[0,4)`. -/
def questionWFb (q : AIQuestion) : Bool :=
  (q.options.length == 4) && decide (0 ≤ q.correct) && decide (q.correct < 4)

/-- `LearningAnalytics` of `src/types/ai.ts`. -/
structure LearningAnalytics where
  strengths : List String
  areasForImprovement : List String
  recommendedNextTopics : List String
  personalizedTips : List String
deriving DecidableEq

namespace AIService

/-- `getModuleDisplayName` (`aiService.ts` lines 860-870). -/
def getModuleDisplayName (moduleKey : String) : String :=
  if moduleKey = "letters" then "Letters & Phonics"
  else if moduleKey = "numbers" then "Numbers & Counting"
  else if moduleKey = "colors" then "Colors & Shapes"
  else if moduleKey = "shapes" then "Shapes"
  else if moduleKey = "animals" then "Animals & Nature"
  else if moduleKey = "math" then "Simple Math"
  else moduleKey

/-- `Math.round((correctAnswers / totalAnswers) * 100)` guarded by
`totalAnswers > 0`: for naturals, `round(100*c/t) = (200*c + t) / (2*t)`
(floor of `100*c/t + 1/2`), and `0` when `t = 0`. -/
def accuracyRate (c t : Nat) : Nat :=
  if 0 < t then (200 * c + t) / (2 * t) else 0

/-- Modules with mastery at least 3, by display name (`aiService.ts` lines
761-763).  `moduleProgress` is the entry list of the JS record. -/
def strongModules (mp : List (String × Nat)) : List String :=
  (mp.filter (fun p => decide (3 ≤ p.2))).map (fun p => getModuleDisplayName p.1)

/-- Modules with mastery strictly between 0 and 2, by display name
(`aiService.ts` lines 764-766). -/
def needsPracticeModules (mp : List (String × Nat)) : List String :=
  (mp.filter (fun p => decide (0 < p.2) && decide (p.2 < 2))).map
    (fun p => getModuleDisplayName p.1)

/-- The strengths block of `getFallbackAnalytics` (`aiService.ts` lines
768-789), before the final `slice(0, 3)`. -/
def strengthsRaw (c t : Nat) (mp : List (String × Nat)) : List String :=
  let s1 :=
    if 80 ≤ accuracyRate c t then ["Excellent accuracy - you\x27re doing amazing!"]
    else if 60 ≤ accuracyRate c t then ["Good problem-solving skills"]
    else if 0 < t then ["Great effort and persistence"]
    else []
  let s2 := s1 ++
    (if strongModules mp ≠ [] then
      ["Strong performance in " ++ String.intercalate ", " (strongModules mp)]
     else [])
  let s3 := s2 ++ (if 10 ≤ t then ["Wonderful dedication to learning"] else [])
  if s3 = [] then
    ["Ready and eager to learn", "Positive attitude toward challenges"]
  else s3

/-- The improvement-areas block of `getFallbackAnalytics` (`aiService.ts`
lines 791-806), before the final `slice(0, 3)`. -/
def areasRaw (c t : Nat) (mp : List (String × Nat)) : List String :=
  let a1 :=
    if accuracyRate c t < 50 ∧ 5 < t then ["Take time to read questions carefully"]
    else []
  let a2 := a1 ++
    (if needsPracticeModules mp ≠ [] then
      ["Extra practice with " ++ String.intercalate ", " (needsPracticeModules mp)]
     else [])
  let a3 := a2 ++
    (if mp.length < 3 then ["Try exploring different learning topics"] else [])
  if a3 = [] then ["Continue practicing regularly", "Try new learning modules"]
  else a3

/-- The recommended-topics block of `getFallbackAnalytics` (`aiService.ts`
lines 808-828), before the final `slice(0, 4)`. -/
def recommendedRaw (mp : List (String × Nat)) : List String :=
  let allModules := ["Letters & Phonics", "Numbers & Counting", "Colors & Shapes",
    "Animals & Nature", "Simple Math", "Shapes"]
  let attemptedModules := mp.map Prod.fst
  let notAttempted := allModules.filter (fun m =>
    !(attemptedModules.any (fun attempted => getModuleDisplayName attempted == m)))
  let r1 := if notAttempted ≠ [] then notAttempted.take 3 else []
  let r2 := r1 ++
    (match needsPracticeModules mp with
     | [] => []
     | h :: _ => ["Review " ++ h ++ " questions"])
  if r2 = [] then ["Letters & Phonics", "Numbers & Counting", "Colors & Shapes"]
  else r2

/-- The personalized-tips block of `getFallbackAnalytics` (`aiService.ts`
lines 830-847), before the final `slice(0, 4)`. -/
def tipsRaw (c t : Nat) (mp : List (String × Nat)) : List String :=
  let t1 :=
    if 80 ≤ accuracyRate c t then
      ["You\x27re doing fantastic! Keep up the great work!"]
    else if 60 ≤ accuracyRate c t then
      ["Nice progress! Try to slow down and think about each answer."]
    else if 0 < t then
      ["Every mistake is a step toward learning something new!"]
    else []
  let t2 := t1 ++
    ["Take breaks when you need them - learning should be fun!",
     "Remember, asking questions is a sign of curiosity and intelligence"]
  t2 ++
    (match strongModules mp with
     | h :: _ =>
       ["You\x27re really good at " ++ h ++ " - use that confidence in other areas!"]
     | [] => ["Every expert was once a beginner - keep practicing!"])

/-- `getFallbackAnalytics` (`aiService.ts` lines 754-855): the deterministic
fallback analytics report.  The `recentTopics` argument is accepted but
unused (`_recentTopics` in the source). -/
def getFallbackAnalytics (c t : Nat) (mp : List (String × Nat))
    (_recentTopics : List String) : LearningAnalytics where
  strengths := (strengthsRaw c t mp).take 3
  areasForImprovement := (areasRaw c t mp).take 3
  recommendedNextTopics := (recommendedRaw mp).take 4
  personalizedTips := (tipsRaw c t mp).take 4

/-- A five-element reply in which elements 2 and 4 lack the numeric
`correct` field and the other three are fully valid. -/
def exampleReply : List RawQuestion :=
  [⟨some "q1", some ["a1", "b1", "c1", "d1"], some 0, some "e1", none, some "t1"⟩,
   ⟨some "q2", some ["a2", "b2", "c2", "d2"], none, some "e2", none, some "t2"⟩,
   ⟨some "q3", some ["a3", "b3", "c3", "d3"], some 1, some "e3", none, some "t3"⟩,
   ⟨some "q4", some ["a4", "b4", "c4", "d4"], none, some "e4", none, some "t4"⟩,
   ⟨some "q5", some ["a5", "b5", "c5", "d5"], some 2, some "e5", none, some "t5"⟩]

/-- A reply whose single element fails every validation check. -/
def invalidReply : List RawQuestion :=
  [⟨none, none, none, none, none, none⟩]

end AIService

/-- Reads a decimal digit character back to its value. -/
def charDigit (c : Char) : Nat := c.toNat - 48

namespace AIService

/-- A fully valid raw element that also carries its own `difficulty`
field (`hard`), which the parser ignores. -/
def hardRaw : RawQuestion :=
  ⟨some "What is 1 + 1?", some ["1", "2", "3", "4"], some 1,
   some "Great!", some "hard", some "addition"⟩

end AIService

namespace App

theorem runOutcomes_cons (start : UserProgress) (e : Outcome) (es : List Outcome) :
    runOutcomes start (e :: es) =
      runOutcomes (updateProgress start e.isCorrect e.module e.topic) es := rfl

theorem runOutcomes_append (start : UserProgress) (l1 l2 : List Outcome) :
    runOutcomes start (l1 ++ l2) = runOutcomes (runOutcomes start l1) l2 :=
  List.foldl_append _ _ _ _

theorem countCorrect_cons (e : Outcome) (es : List Outcome) :
    countCorrect (e :: es) = (if e.isCorrect then 1 else 0) + countCorrect es := by
  cases h : e.isCorrect <;>
    simp [countCorrect, List.filter_cons, h, Nat.add_comm]

theorem runOutcomes_stats (events : List Outcome) : ∀ start : UserProgress,
    (runOutcomes start events).totalPoints = start.totalPoints + 10 * countCorrect events ∧
    (runOutcomes start events).correctAnswers = start.correctAnswers + countCorrect events ∧
    (runOutcomes start events).totalAnswers = start.totalAnswers + events.length := by
  induction events with
  | nil => intro start; simp [runOutcomes, countCorrect]
  | cons e es ih =>
    intro start
    obtain ⟨h1, h2, h3⟩ := ih (updateProgress start e.isCorrect e.module e.topic)
    refine ⟨?_, ?_, ?_⟩
    · rw [runOutcomes_cons, h1, countCorrect_cons]
      simp only [updateProgress]
      cases hc : e.isCorrect <;> simp [hc] <;> omega
    · rw [runOutcomes_cons, h2, countCorrect_cons]
      simp only [updateProgress]
      cases hc : e.isCorrect <;> simp [hc] <;> omega
    · rw [runOutcomes_cons, h3]
      simp only [updateProgress, List.length_cons]
      omega

theorem trailingCorrect_snoc (l : List Outcome) (e : Outcome) :
    trailingCorrect (l ++ [e]) =
      if e.isCorrect then trailingCorrect l + 1 else 0 := by
  cases h : e.isCorrect <;>
    simp [trailingCorrect, List.takeWhile_cons, h]

theorem runOutcomes_streak (events : List Outcome) (name : String) :
    (runOutcomes (zeroProgress name) events).currentStreak = trailingCorrect events := by
  induction events using List.reverseRecOn with
  | nil => simp [runOutcomes, trailingCorrect, zeroProgress]
  | append_singleton l e ih =>
    rw [runOutcomes_append, trailingCorrect_snoc]
    show (updateProgress _ e.isCorrect e.module e.topic).currentStreak = _
    cases h : e.isCorrect <;> simp [updateProgress, h, ih]

end App

/-- C1: the per-answer ledger update performed by `handleAnswerSelect` is the
pure transactional update of the spec — `totalAnswers` rises by 1,
`correctAnswers` and `totalPoints` rise by 1 and 10 exactly on a correct
outcome, the streak increments or resets, the selected module's mastery rises
by 1 exactly on a correct outcome and no other module changes, and the topic
is prepended to `recentTopics` truncated to length 10; consequently any
sequence of `N` outcomes with `C` correct applied to the zero ledger yields
`totalPoints = 10*C`, `correctAnswers = C`, `totalAnswers = N`. -/
theorem c1_ledger_update_transactional :
    (∀ (prev : App.UserProgress) (c : Bool) (m : LearningModule) (t : String),
      (App.updateProgress prev c m t).totalAnswers = prev.totalAnswers + 1 ∧
      (App.updateProgress prev c m t).correctAnswers
        = prev.correctAnswers + (if c then 1 else 0) ∧
      (App.updateProgress prev c m t).totalPoints
        = prev.totalPoints + (if c then 10 else 0) ∧
      (App.updateProgress prev c m t).currentStreak
        = (if c then prev.currentStreak + 1 else 0) ∧
      (∀ m2, (App.updateProgress prev c m t).moduleProgress m2
        = (if m2 = m then prev.moduleProgress m + (if c then 1 else 0)
           else prev.moduleProgress m2)) ∧
      (App.updateProgress prev c m t).recentTopics
        = (t :: prev.recentTopics).take 10) ∧
    (∀ (name : String) (events : List App.Outcome),
      (App.runOutcomes (App.zeroProgress name) events).totalPoints
        = 10 * App.countCorrect events ∧
      (App.runOutcomes (App.zeroProgress name) events).correctAnswers
        = App.countCorrect events ∧
      (App.runOutcomes (App.zeroProgress name) events).totalAnswers
        = events.length) := by
  constructor
  · intro prev c m t
    refine ⟨rfl, rfl, rfl, rfl, ?_, rfl⟩
    intro m2
    simp [App.updateProgress]
  · intro name events
    obtain ⟨h1, h2, h3⟩ := App.runOutcomes_stats events (App.zeroProgress name)
    exact ⟨by rw [h1]; simp [App.zeroProgress], by rw [h2]; simp [App.zeroProgress],
      by rw [h3]; simp [App.zeroProgress]⟩

/-- C3: after any finite outcome sequence applied from the zero ledger,
`currentStreak` equals the length of the maximal trailing run of correct
outcomes, and a single incorrect outcome resets the streak to 0 from any
prior ledger state. -/
theorem c3_streak_is_trailing_run :
    (∀ (name : String) (events : List App.Outcome),
      (App.runOutcomes (App.zeroProgress name) events).currentStreak
        = App.trailingCorrect events) ∧
    (∀ (prev : App.UserProgress) (m : LearningModule) (t : String),
      (App.updateProgress prev false m t).currentStreak = 0) :=
  ⟨fun name events => App.runOutcomes_streak events name,
   fun _ _ _ => rfl⟩

/-- C9: the age-based question-count policy is a monotonically non-decreasing
step function of age, equal to 3 for every age at most 5 and to 6 for every
age at least 10. -/
theorem c9_question_count_monotone :
    (∀ a1 a2 : Nat, a1 ≤ a2 →
      App.getQuestionCountForAge a1 ≤ App.getQuestionCountForAge a2) ∧
    (∀ a : Nat, a ≤ 5 → App.getQuestionCountForAge a = 3) ∧
    (∀ a : Nat, 10 ≤ a → App.getQuestionCountForAge a = 6) := by
  refine ⟨?_, ?_, ?_⟩ <;>
    intro a1 <;>
    first
      | (intro a2 h
         simp only [App.getQuestionCountForAge]
         split_ifs <;> omega)
      | (intro h
         simp only [App.getQuestionCountForAge]
         split_ifs <;> omega)

/-- C9 witness at concrete ages. -/
theorem c9_question_count_monotone_witness :
    (3 ≤ 11 ∧ App.getQuestionCountForAge 3 ≤ App.getQuestionCountForAge 11) ∧
    (4 ≤ 5 ∧ App.getQuestionCountForAge 4 = 3) ∧
    (10 ≤ 12 ∧ App.getQuestionCountForAge 12 = 6) :=
  ⟨⟨by decide, c9_question_count_monotone.1 3 11 (by decide)⟩,
   ⟨by decide, c9_question_count_monotone.2.1 4 (by decide)⟩,
   ⟨by decide, c9_question_count_monotone.2.2 12 (by decide)⟩⟩

namespace App

theorem runWithRules_append (l1 l2 : List Outcome) :
    runWithRules (l1 ++ l2) = l2.foldl stepWithRules (runWithRules l1) :=
  List.foldl_append _ _ _ _

theorem stepWithRules_points (s : UserProgress × List String) (e : Outcome) :
    (stepWithRules s e).1.totalPoints
      = s.1.totalPoints + (if e.isCorrect then 10 else 0) := rfl

theorem updateProgress_points (s : UserProgress) (c : Bool)
    (m : LearningModule) (t : String) :
    (updateProgress s c m t).totalPoints
      = s.totalPoints + (if c then 10 else 0) := rfl

theorem stepWithRules_games (s : UserProgress × List String) (e : Outcome) :
    (stepWithRules s e).2 =
      (if 50 ≤ (updateProgress s.1 e.isCorrect e.module e.topic).totalPoints ∧
          "memory_game" ∉ s.2
       then s.2 ++ ["memory_game"] else s.2) := by
  simp only [stepWithRules, DatabaseService.checkAchievements]
  split_ifs <;> rfl

theorem stepWithRules_memInv (s : UserProgress × List String) (e : Outcome)
    (h : "memory_game" ∈ s.2 → 50 ≤ s.1.totalPoints) :
    "memory_game" ∈ (stepWithRules s e).2 → 50 ≤ (stepWithRules s e).1.totalPoints := by
  intro hmem
  rw [stepWithRules_points]
  rw [stepWithRules_games] at hmem
  by_cases h1 : 50 ≤ (updateProgress s.1 e.isCorrect e.module e.topic).totalPoints ∧
      "memory_game" ∉ s.2
  · have := h1.1
    rw [updateProgress_points] at this
    exact this
  · rw [if_neg h1] at hmem
    have := h hmem
    split <;> omega

theorem runWithRules_memInv (events : List Outcome) :
    "memory_game" ∈ (runWithRules events).2 → 50 ≤ (runWithRules events).1.totalPoints := by
  have aux : ∀ (l : List Outcome) (s : UserProgress × List String),
      ("memory_game" ∈ s.2 → 50 ≤ s.1.totalPoints) →
      ("memory_game" ∈ (l.foldl stepWithRules s).2 →
        50 ≤ (l.foldl stepWithRules s).1.totalPoints) := by
    intro l
    induction l with
    | nil => intro s h; exact h
    | cons e es ih =>
      intro s h
      exact ih (stepWithRules s e) (stepWithRules_memInv s e h)
  exact aux events (zeroProgress "friend", []) (by simp)

theorem stepWithRules_achievements_cross (s : UserProgress × List String) (e : Outcome)
    (hlt : s.1.totalPoints < 50)
    (hmem : "memory_game" ∉ s.2)
    (hge : 50 ≤ (stepWithRules s e).1.totalPoints) :
    (stepWithRules s e).2 = s.2 ++ ["memory_game"] ∧
    (stepWithRules s e).1.achievements
      = s.1.achievements ++ ["First Game Unlocked!"] := by
  have hc : e.isCorrect = true := by
    cases he : e.isCorrect
    · rw [stepWithRules_points, he] at hge
      simp at hge
      omega
    · rfl
  have hnp : (updateProgress s.1 e.isCorrect e.module e.topic).totalPoints
      = s.1.totalPoints + 10 := by
    rw [updateProgress_points, hc]
    simp
  have h50 : 50 ≤ (updateProgress s.1 e.isCorrect e.module e.topic).totalPoints := by
    rw [stepWithRules_points, hc] at hge
    rw [hnp]
    simpa using hge
  have h1 : 50 ≤ (updateProgress s.1 e.isCorrect e.module e.topic).totalPoints ∧
      "memory_game" ∉ s.2 := ⟨h50, hmem⟩
  constructor
  · rw [stepWithRules_games, if_pos h1]
  · have hach : (stepWithRules s e).1.achievements
        = (DatabaseService.checkAchievements
            (updateProgress s.1 e.isCorrect e.module e.topic).totalPoints
            s.1.achievements s.2).1 := rfl
    rw [hach]
    simp only [DatabaseService.checkAchievements]
    rw [if_pos h1]
    apply if_neg
    intro hx
    rw [hnp] at hx
    omega

end App

/-- C4: applying the outcome sequence [correct, correct, incorrect, correct,
correct, correct] from the zero ledger with achievement/unlock rule
evaluation after every update yields points 50, correctAnswers 5,
totalAnswers 6, streak 3, unlocks exactly `memory_game` and achievements
exactly `First Game Unlocked!`; and along any accumulation path, the update
that first carries the total to 50 or more points adds exactly the
`memory_game` unlock and the `First Game Unlocked!` achievement. -/
theorem c4_fifty_point_crossing :
    ((App.runWithRules App.scenarioOutcomes).1.totalPoints = 50 ∧
     (App.runWithRules App.scenarioOutcomes).1.correctAnswers = 5 ∧
     (App.runWithRules App.scenarioOutcomes).1.totalAnswers = 6 ∧
     (App.runWithRules App.scenarioOutcomes).1.currentStreak = 3 ∧
     (App.runWithRules App.scenarioOutcomes).2 = ["memory_game"] ∧
     (App.runWithRules App.scenarioOutcomes).1.achievements
       = ["First Game Unlocked!"]) ∧
    (∀ (events : List App.Outcome) (e : App.Outcome),
      (App.runWithRules events).1.totalPoints < 50 →
      50 ≤ (App.stepWithRules (App.runWithRules events) e).1.totalPoints →
      (App.stepWithRules (App.runWithRules events) e).2
        = (App.runWithRules events).2 ++ ["memory_game"] ∧
      (App.stepWithRules (App.runWithRules events) e).1.achievements
        = (App.runWithRules events).1.achievements ++ ["First Game Unlocked!"]) := by
  constructor
  · exact ⟨by decide, by decide, by decide, by decide, by decide, by decide⟩
  · intro events e hlt hge
    have hmem : "memory_game" ∉ (App.runWithRules events).2 := by
      intro hmm
      exact absurd (App.runWithRules_memInv events hmm) (by omega)
    exact App.stepWithRules_achievements_cross (App.runWithRules events) e hlt hmem hge

/-- C4 witness: crossing 50 points from a 40-point ledger reached by four
correct answers. -/
theorem c4_fifty_point_crossing_witness :
    (App.runWithRules App.fortyPointOutcomes).1.totalPoints < 50 ∧
    50 ≤ (App.stepWithRules (App.runWithRules App.fortyPointOutcomes)
      ⟨true, .numbers, "counting"⟩).1.totalPoints ∧
    (App.stepWithRules (App.runWithRules App.fortyPointOutcomes)
      ⟨true, .numbers, "counting"⟩).2
      = (App.runWithRules App.fortyPointOutcomes).2 ++ ["memory_game"] ∧
    (App.stepWithRules (App.runWithRules App.fortyPointOutcomes)
      ⟨true, .numbers, "counting"⟩).1.achievements
      = (App.runWithRules App.fortyPointOutcomes).1.achievements
        ++ ["First Game Unlocked!"] := by
  refine ⟨by decide, by decide, ?_⟩
  exact c4_fifty_point_crossing.2 App.fortyPointOutcomes
    ⟨true, .numbers, "counting"⟩ (by decide) (by decide)

/-- C8: once the answer for the current question has been revealed
(`showAnswer = true`), any further answer selection leaves the entire quiz
state — ledger, selected answer, reveal flag and all — unchanged. -/
theorem c8_second_selection_noop (s : App.QuizState) (i : Int)
    (h : s.showAnswer = true) :
    App.handleAnswerSelect s i = s := by
  simp [App.handleAnswerSelect, h]

/-- C8 witness: a second selection on a revealed question is the identity. -/
theorem c8_second_selection_noop_witness :
    revealedState.showAnswer = true ∧
    App.handleAnswerSelect revealedState 2 = revealedState :=
  ⟨rfl, c8_second_selection_noop revealedState 2 rfl⟩

namespace AIService

theorem defaulted_ne_nil {X D : List String} (hD : D ≠ []) [Decidable (X = [])] :
    (if X = [] then D else X) ≠ [] := by
  split
  · exact hD
  · assumption

theorem strengthsRaw_ne_nil (c t : Nat) (mp : List (String × Nat)) :
    strengthsRaw c t mp ≠ [] := by
  simp only [strengthsRaw]
  exact defaulted_ne_nil (by simp)

theorem areasRaw_ne_nil (c t : Nat) (mp : List (String × Nat)) :
    areasRaw c t mp ≠ [] := by
  simp only [areasRaw]
  exact defaulted_ne_nil (by simp)

theorem recommendedRaw_ne_nil (mp : List (String × Nat)) :
    recommendedRaw mp ≠ [] := by
  simp only [recommendedRaw]
  exact defaulted_ne_nil (by simp)

theorem tipsRaw_ne_nil (c t : Nat) (mp : List (String × Nat)) :
    tipsRaw c t mp ≠ [] := by
  simp only [tipsRaw]
  intro h
  rcases List.append_eq_nil.1 h with ⟨h1, -⟩
  rcases List.append_eq_nil.1 h1 with ⟨-, h2⟩
  exact List.cons_ne_nil _ _ h2

theorem take_ne_nil_of_ne_nil {l : List String} {n : Nat}
    (hn : n ≠ 0) (hl : l ≠ []) : l.take n ≠ [] := by
  intro h
  rcases List.take_eq_nil_iff.1 h with h | h
  · exact hn h
  · exact hl h

end AIService

/-- C7: the fallback analytics computation is total — the accuracy division
is guarded (`accuracyRate c 0 = 0`), every report has non-empty strengths,
improvement areas, recommended topics and tips clipped to lengths 3, 3, 4
and 4, and the zero ledger yields the generic filler report. -/
theorem c7_fallback_analytics_total :
    (∀ c : Nat, AIService.accuracyRate c 0 = 0) ∧
    (∀ (c t : Nat) (mp : List (String × Nat)) (rt : List String),
      (AIService.getFallbackAnalytics c t mp rt).strengths ≠ [] ∧
      (AIService.getFallbackAnalytics c t mp rt).strengths.length ≤ 3 ∧
      (AIService.getFallbackAnalytics c t mp rt).areasForImprovement ≠ [] ∧
      (AIService.getFallbackAnalytics c t mp rt).areasForImprovement.length ≤ 3 ∧
      (AIService.getFallbackAnalytics c t mp rt).recommendedNextTopics ≠ [] ∧
      (AIService.getFallbackAnalytics c t mp rt).recommendedNextTopics.length ≤ 4 ∧
      (AIService.getFallbackAnalytics c t mp rt).personalizedTips ≠ [] ∧
      (AIService.getFallbackAnalytics c t mp rt).personalizedTips.length ≤ 4) ∧
    AIService.getFallbackAnalytics 0 0 [] [] =
      { strengths := ["Ready and eager to learn",
          "Positive attitude toward challenges"]
        areasForImprovement := ["Try exploring different learning topics"]
        recommendedNextTopics := ["Letters & Phonics", "Numbers & Counting",
          "Colors & Shapes"]
        personalizedTips := ["Take breaks when you need them - learning should be fun!",
          "Remember, asking questions is a sign of curiosity and intelligence",
          "Every expert was once a beginner - keep practicing!"] } := by
  refine ⟨fun c => rfl, ?_, by decide⟩
  intro c t mp rt
  refine ⟨AIService.take_ne_nil_of_ne_nil (by decide) (AIService.strengthsRaw_ne_nil c t mp),
    List.length_take_le _ _,
    AIService.take_ne_nil_of_ne_nil (by decide) (AIService.areasRaw_ne_nil c t mp),
    List.length_take_le _ _,
    AIService.take_ne_nil_of_ne_nil (by decide) (AIService.recommendedRaw_ne_nil mp),
    List.length_take_le _ _,
    AIService.take_ne_nil_of_ne_nil (by decide) (AIService.tipsRaw_ne_nil c t mp),
    List.length_take_le _ _⟩

/-- C2: a parsed reply element is kept exactly when it has a non-empty
prompt, exactly 4 options, a numeric correct index in `[0,4)` and a
non-empty explanation; the validated batch is exactly the surviving
elements; a non-array/non-JSON reply and a reply with zero survivors both
make `generateQuestions` return the fallback batch for the configured
module; and a 5-element reply missing the correct index on 2 items yields
exactly 3 validated questions. -/
theorem c2_reply_validation :
    (∀ q : AIService.RawQuestion,
      AIService.isValidQuestion q = true ↔ AIService.specAccepts q) ∧
    (∀ (now : Nat) (items : List AIService.RawQuestion),
      (AIService.parseQuestionsFromResponse now (some items)).length
        = (items.filter AIService.isValidQuestion).length) ∧
    (∀ (module : String) (now ts seed : Nat)
      (shuffle : List AIQuestion → List AIQuestion),
      AIService.generateQuestions module now ts seed shuffle none
        = AIService.getFallbackQuestions module ts seed shuffle) ∧
    (∀ (module : String) (now ts seed : Nat)
      (shuffle : List AIQuestion → List AIQuestion)
      (items : List AIService.RawQuestion),
      items.filter AIService.isValidQuestion = [] →
      AIService.generateQuestions module now ts seed shuffle (some items)
        = AIService.getFallbackQuestions module ts seed shuffle) ∧
    (AIService.parseQuestionsFromResponse 0 (some AIService.exampleReply)).length = 3 := by
  refine ⟨?_, ?_, ?_, ?_, by decide⟩
  · intro q
    rcases q with ⟨qq, qo, qc, qe, qd, qt⟩
    cases qq <;> cases qo <;> cases qc <;> cases qe <;>
      simp [AIService.isValidQuestion, AIService.truthyStr, AIService.specAccepts,
        and_assoc]
  · intro now items
    simp only [AIService.parseQuestionsFromResponse]
    split
    · next h => simp [h]
    · simp
  · intro module now ts seed shuffle
    rfl
  · intro module now ts seed shuffle items h
    have hp : AIService.parseQuestionsFromResponse now (some items) = [] := by
      simp only [AIService.parseQuestionsFromResponse]
      rw [h]
      simp
    simp [AIService.generateQuestions, hp]

/-- C2 witness: a reply whose only element fails validation makes the
generation call fall back to the question bank. -/
theorem c2_reply_validation_witness :
    AIService.invalidReply.filter AIService.isValidQuestion = [] ∧
    AIService.generateQuestions "letters" 0 0 0 (fun l => l)
        (some AIService.invalidReply)
      = AIService.getFallbackQuestions "letters" 0 0 (fun l => l) :=
  ⟨by decide,
   c2_reply_validation.2.2.2.1 "letters" 0 0 0 (fun l => l)
     AIService.invalidReply (by decide)⟩

namespace AIService

theorem allFallbackQuestions_len3 (ts : Nat) (module : String) :
    ((allFallbackQuestions ts module).all (fun s => s.length == 3)) = true := by
  unfold allFallbackQuestions
  split_ifs <;> rfl

theorem allFallbackQuestions_wf (ts : Nat) (module : String) :
    ((allFallbackQuestions ts module).all (fun s => s.all questionWFb)) = true := by
  unfold allFallbackQuestions
  split_ifs <;> rfl

/-- The set selected by `seed % setCount` is one of the curated sets
whenever the module is known. -/
theorem selectedSet_mem (ts seed : Nat) (module : String)
    (h : (allFallbackQuestions ts module).length ≠ 0) :
    (allFallbackQuestions ts module).getD
        (seed % (allFallbackQuestions ts module).length) []
      ∈ allFallbackQuestions ts module := by
  have hlt : seed % (allFallbackQuestions ts module).length
      < (allFallbackQuestions ts module).length :=
    Nat.mod_lt _ (Nat.pos_of_ne_zero h)
  rw [List.getD_eq_getElem _ _ hlt]
  exact List.getElem_mem _

theorem selectedSet_length (ts seed : Nat) (module : String)
    (h : (allFallbackQuestions ts module).length ≠ 0) :
    ((allFallbackQuestions ts module).getD
        (seed % (allFallbackQuestions ts module).length) []).length = 3 := by
  have := List.all_eq_true.1 (allFallbackQuestions_len3 ts module) _
    (selectedSet_mem ts seed module h)
  simpa using this

end AIService

theorem questionWFb_spec {q : AIQuestion} (h : questionWFb q = true) :
    q.options.length = 4 ∧ 0 ≤ q.correct ∧ q.correct < 4 := by
  simp only [questionWFb, Bool.and_eq_true, beq_iff_eq, decide_eq_true_eq] at h
  exact ⟨h.1.1, h.1.2, h.2⟩

/-- C5 counterexample: at module `letters`, seed 0 and one fixed timestamp,
the identity rearrangement and the reversal rearrangement — both orderings
the `Math.random()`-driven comparator can produce — give different question
sequences, even though the inputs `(module, seed)` are identical; the two
results are merely permutations of one another. -/
theorem c5_fallback_not_order_deterministic :
    AIService.getFallbackQuestions "letters" 0 0 (fun l => l)
      ≠ AIService.getFallbackQuestions "letters" 0 0 (fun l => l.reverse) ∧
    (AIService.getFallbackQuestions "letters" 0 0 (fun l => l.reverse)).Perm
      (AIService.getFallbackQuestions "letters" 0 0 (fun l => l)) := by
  constructor
  · decide
  · decide

/-- C5 amended: the fallback selection is deterministic up to the within-set
order — the curated set is chosen by `seed % setCount`, so two calls with
identical `(module, seed)` return permutations of each other — but the
within-set shuffle draws fresh `Math.random()` values unrelated to the seed,
so the order itself is not reproducible; unknown module keys yield the empty
sequence. -/
theorem c5_fallback_set_deterministic :
    (∀ (module : String) (ts seed : Nat)
       (s1 s2 : List AIQuestion → List AIQuestion),
      (∀ l, (s1 l).Perm l) → (∀ l, (s2 l).Perm l) →
      (AIService.getFallbackQuestions module ts seed s1).Perm
        (AIService.getFallbackQuestions module ts seed s2)) ∧
    (∀ (module : String) (ts seed : Nat)
       (shuffle : List AIQuestion → List AIQuestion),
      module ≠ "letters" → module ≠ "numbers" → module ≠ "colors" →
      AIService.getFallbackQuestions module ts seed shuffle = []) := by
  constructor
  · intro module ts seed s1 s2 hs1 hs2
    by_cases h : (AIService.allFallbackQuestions ts module).length = 0
    · simp [AIService.getFallbackQuestions, h]
    · simp only [AIService.getFallbackQuestions, if_neg h]
      have hlen := AIService.selectedSet_length ts seed module h
      have h1 := hs1 ((AIService.allFallbackQuestions ts module).getD
        (seed % (AIService.allFallbackQuestions ts module).length) [])
      have h2 := hs2 ((AIService.allFallbackQuestions ts module).getD
        (seed % (AIService.allFallbackQuestions ts module).length) [])
      rw [List.take_of_length_le (by rw [h1.length_eq, hlen]; omega),
        List.take_of_length_le (by rw [h2.length_eq, hlen]; omega)]
      exact h1.trans h2.symm
  · intro module ts seed shuffle h1 h2 h3
    simp [AIService.getFallbackQuestions, AIService.allFallbackQuestions, h1, h2, h3]

/-- C5 witness: two identity rearrangements at the same `(module, seed)`
give permutation-equal results, and the unknown module `animals` yields
the empty sequence. -/
theorem c5_fallback_set_deterministic_witness :
    (AIService.getFallbackQuestions "letters" 0 0 (fun l => l)).Perm
      (AIService.getFallbackQuestions "letters" 0 0 (fun l => l)) ∧
    AIService.getFallbackQuestions "animals" 0 0 (fun l => l) = [] :=
  ⟨c5_fallback_set_deterministic.1 "letters" 0 0 (fun l => l) (fun l => l)
      (fun l => List.Perm.refl l) (fun l => List.Perm.refl l),
   c5_fallback_set_deterministic.2 "animals" 0 0 (fun l => l)
     (by decide) (by decide) (by decide)⟩

/-- C10: every question produced by either fallback selector — the App-level
static bank and the AI service's seeded bank under any rearrangement the
random comparator can produce — has exactly 4 options and a correct index
in `[0,4)`. -/
theorem c10_fallback_question_invariant :
    (∀ (m : Option LearningModule) (q : AIQuestion),
      q ∈ App.getFallbackQuestions m →
      q.options.length = 4 ∧ 0 ≤ q.correct ∧ q.correct < 4) ∧
    (∀ (module : String) (ts seed : Nat)
       (shuffle : List AIQuestion → List AIQuestion),
      (∀ l, (shuffle l).Perm l) →
      ∀ q ∈ AIService.getFallbackQuestions module ts seed shuffle,
        q.options.length = 4 ∧ 0 ≤ q.correct ∧ q.correct < 4) := by
  constructor
  · intro m q hq
    match m with
    | none => cases hq
    | some mod =>
      have hall : ((App.fallbackData mod).all questionWFb) = true := by
        cases mod <;> rfl
      exact questionWFb_spec (List.all_eq_true.1 hall q hq)
  · intro module ts seed shuffle hshuffle q hq
    by_cases h : (AIService.allFallbackQuestions ts module).length = 0
    · simp [AIService.getFallbackQuestions, h] at hq
    · simp only [AIService.getFallbackQuestions, if_neg h] at hq
      have hmem : q ∈ (AIService.allFallbackQuestions ts module).getD
          (seed % (AIService.allFallbackQuestions ts module).length) [] :=
        (hshuffle _).mem_iff.1 (List.mem_of_mem_take hq)
      have hsets := List.all_eq_true.1 (AIService.allFallbackQuestions_wf ts module)
        _ (AIService.selectedSet_mem ts seed module h)
      exact questionWFb_spec (List.all_eq_true.1 hsets q hmem)

/-- C10 witness: the first question of the App letters bank and of the AI
service letters bank each satisfy the invariant. -/
theorem c10_fallback_question_invariant_witness :
    ((App.fallbackData .letters).getD 0 App.dummyQuestion
        ∈ App.getFallbackQuestions (some .letters) ∧
      ((App.fallbackData .letters).getD 0 App.dummyQuestion).options.length = 4 ∧
      0 ≤ ((App.fallbackData .letters).getD 0 App.dummyQuestion).correct ∧
      ((App.fallbackData .letters).getD 0 App.dummyQuestion).correct < 4) ∧
    (((AIService.lettersSets 0).getD 0 []).getD 0 App.dummyQuestion
        ∈ AIService.getFallbackQuestions "letters" 0 0 (fun l => l) ∧
      (((AIService.lettersSets 0).getD 0 []).getD 0 App.dummyQuestion).options.length = 4 ∧
      0 ≤ (((AIService.lettersSets 0).getD 0 []).getD 0 App.dummyQuestion).correct ∧
      (((AIService.lettersSets 0).getD 0 []).getD 0 App.dummyQuestion).correct < 4) :=
  ⟨⟨by decide, c10_fallback_question_invariant.1 (some .letters) _ (by decide)⟩,
   ⟨by decide, c10_fallback_question_invariant.2 "letters" 0 0 (fun l => l)
      (fun l => List.Perm.refl l) _ (by decide)⟩⟩

theorem charDigit_digitChar {d : Nat} (hd : d < 10) :
    charDigit (Nat.digitChar d) = d := by
  interval_cases d <;> rfl

theorem map_charDigit_digitChar (l : List Nat) (hl : ∀ d ∈ l, d < 10) :
    (l.map Nat.digitChar).map charDigit = l := by
  rw [List.map_map]
  have h : ∀ d ∈ l, (charDigit ∘ Nat.digitChar) d = id d :=
    fun d hd => charDigit_digitChar (hl d hd)
  rw [List.map_congr_left h, List.map_id]

theorem natDec_data (n : Nat) (hn : n ≠ 0) :
    (natDec n).data = (Nat.digits 10 n).reverse.map Nat.digitChar := by
  simp [natDec, hn]
  rfl

theorem digits_rev_of_natDec_data {m n : Nat} (hm : m ≠ 0) (hn : n ≠ 0)
    (h : (natDec m).data = (natDec n).data) :
    (Nat.digits 10 m).reverse = (Nat.digits 10 n).reverse := by
  rw [natDec_data m hm, natDec_data n hn] at h
  have hm10 : ∀ d ∈ (Nat.digits 10 m).reverse, d < 10 := fun d hd =>
    Nat.digits_lt_base (by norm_num) (List.mem_reverse.1 hd)
  have hn10 : ∀ d ∈ (Nat.digits 10 n).reverse, d < 10 := fun d hd =>
    Nat.digits_lt_base (by norm_num) (List.mem_reverse.1 hd)
  calc (Nat.digits 10 m).reverse
      = ((Nat.digits 10 m).reverse.map Nat.digitChar).map charDigit :=
        (map_charDigit_digitChar _ hm10).symm
    _ = ((Nat.digits 10 n).reverse.map Nat.digitChar).map charDigit := by rw [h]
    _ = (Nat.digits 10 n).reverse := map_charDigit_digitChar _ hn10

theorem natDec_data_inj {m n : Nat} (h : (natDec m).data = (natDec n).data) :
    m = n := by
  by_cases hm : m = 0 <;> by_cases hn : n = 0
  · rw [hm, hn]
  · exfalso
    rw [hm] at h
    have h0 : (List.map Nat.digitChar (Nat.digits 10 n).reverse) = [Char.ofNat 48] := by
      rw [← natDec_data n hn, ← h]
      rfl
    have h1 : (Nat.digits 10 n).reverse = [0] := by
      have := congrArg (List.map charDigit) h0
      rw [map_charDigit_digitChar _ (fun d hd =>
        Nat.digits_lt_base (by norm_num) (List.mem_reverse.1 hd))] at this
      simpa [charDigit] using this
    have h2 : Nat.digits 10 n = [0] := by
      have := congrArg List.reverse h1
      simpa using this
    have := Nat.ofDigits_digits 10 n
    rw [h2] at this
    simp [Nat.ofDigits] at this
    exact hn this.symm
  · exfalso
    rw [hn] at h
    have h0 : (List.map Nat.digitChar (Nat.digits 10 m).reverse) = [Char.ofNat 48] := by
      rw [← natDec_data m hm, h]
      rfl
    have h1 : (Nat.digits 10 m).reverse = [0] := by
      have := congrArg (List.map charDigit) h0
      rw [map_charDigit_digitChar _ (fun d hd =>
        Nat.digits_lt_base (by norm_num) (List.mem_reverse.1 hd))] at this
      simpa [charDigit] using this
    have h2 : Nat.digits 10 m = [0] := by
      have := congrArg List.reverse h1
      simpa using this
    have := Nat.ofDigits_digits 10 m
    rw [h2] at this
    simp [Nat.ofDigits] at this
    exact hm this.symm
  · have := digits_rev_of_natDec_data hm hn h
    have hd : Nat.digits 10 m = Nat.digits 10 n := by
      have h2 := congrArg List.reverse this
      simpa using h2
    exact Nat.digits_inj_iff.1 hd

theorem enum_map_fst_comp {α β : Type} (l : List α) (g : Nat → β) :
    l.enum.map (fun p => g p.1) = (List.range l.length).map g := by
  rw [show (fun p : Nat × α => g p.1) = g ∘ Prod.fst from rfl, ← List.map_map,
    List.enum_map_fst]

/-- The id template `ai-<now>-<i>` of `parseQuestionsFromResponse` is
injective in the batch index. -/
theorem aiId_inj (now : Nat) : Function.Injective
    (fun i : Nat => "ai-" ++ natDec now ++ "-" ++ natDec i) := by
  intro i j h
  have hd := congrArg String.data h
  simp only [String.data_append, List.append_assoc] at hd
  exact natDec_data_inj
    (List.append_cancel_left (List.append_cancel_left (List.append_cancel_left hd)))

theorem parse_map_id (now : Nat) (items : List AIService.RawQuestion) :
    (AIService.parseQuestionsFromResponse now (some items)).map (fun q => q.id)
      = (List.range (items.filter AIService.isValidQuestion).length).map
          (fun i => "ai-" ++ natDec now ++ "-" ++ natDec i) := by
  simp only [AIService.parseQuestionsFromResponse]
  split
  · next h => simp [h]
  · rw [List.map_map]
    show (items.filter AIService.isValidQuestion).enum.map
      (fun p => "ai-" ++ natDec now ++ "-" ++ natDec p.1) = _
    exact enum_map_fst_comp (items.filter AIService.isValidQuestion)
      (fun i => "ai-" ++ natDec now ++ "-" ++ natDec i)

/-- C6 counterexample: a valid element carrying its own difficulty `hard` is
parsed to a question tagged `easy` — the parser hard-codes `easy` and never
reads either the source difficulty or the configured level. -/
theorem c6_difficulty_not_propagated :
    AIService.hardRaw.difficulty = some "hard" ∧
    (AIService.parseQuestionsFromResponse 0 (some [AIService.hardRaw])).map
        (fun q => q.difficulty) = ["easy"] ∧
    ("easy" : String) ≠ "hard" :=
  ⟨rfl, by decide, by decide⟩

/-- C6 amended: every accepted batch gets fresh ids that are collision-free
within the batch (`ai-<now>-<index>`), and every question's difficulty is
tagged with the hard-coded `easy`, regardless of the configured level or a
source-provided difficulty. -/
theorem c6_fresh_ids_fixed_difficulty :
    ∀ (now : Nat) (items : List AIService.RawQuestion),
      ((AIService.parseQuestionsFromResponse now (some items)).map
        (fun q => q.id)).Nodup ∧
      (∀ q ∈ AIService.parseQuestionsFromResponse now (some items),
        q.difficulty = "easy") := by
  intro now items
  constructor
  · rw [parse_map_id]
    exact List.Nodup.map (aiId_inj now) (List.nodup_range _)
  · intro q hq
    simp only [AIService.parseQuestionsFromResponse] at hq
    split at hq
    · exact absurd hq (List.not_mem_nil q)
    · obtain ⟨p, hp, rfl⟩ := List.mem_map.1 hq
      rfl

/-- C6 amended witness: the three-survivor example batch has pairwise
distinct ids and its first question is tagged `easy`. -/
theorem c6_fresh_ids_fixed_difficulty_witness :
    ((AIService.parseQuestionsFromResponse 0 (some AIService.exampleReply)).map
      (fun q => q.id)).Nodup ∧
    (AIService.parseQuestionsFromResponse 0 (some AIService.exampleReply)).getD 0
        App.dummyQuestion
      ∈ AIService.parseQuestionsFromResponse 0 (some AIService.exampleReply) ∧
    ((AIService.parseQuestionsFromResponse 0 (some AIService.exampleReply)).getD 0
        App.dummyQuestion).difficulty = "easy" :=
  ⟨(c6_fresh_ids_fixed_difficulty 0 AIService.exampleReply).1,
   by decide,
   (c6_fresh_ids_fixed_difficulty 0 AIService.exampleReply).2 _ (by decide)⟩
